import Mathlib

/-!
Verification of the retry-and-extraction core of `product_reviews.py`.

The Python source is shallowly embedded below.  Network calls and the
third-party API are modelled as oracle functions (one outcome per attempt);
everything the script computes itself (regular-expression matching, the
retry loop of the `try_me` decorator, the extractors, the driver loop and
the `__main__` argument handling) is translated directly from the source.
Python floats produced by `float('d.d')` are modelled as rationals; Python
exceptions as an inductive type; log emission as an explicit log list.
-/

namespace ProductReviews

-- Constants from lines 39-46 of the source.
def API_DELAY : Nat := 2

def REQUEST_DELAY : Nat := 5

def TIMEOUT : Nat := 10

def REQUEST_ATTEMPTS : Nat := 10

-- DEFAULT_NAMESPACE (line 44).  Note the literal already carries the braces.
def DEFAULT_NAMESPACE : String := "\x7bhttp://webservices.amazon.com/AWSECommerceService/2011-08-01\x7d"

def IFRAME_NAME : String := "IFrameURL"

-- Function names used by the decorator's log messages.
def fnIframe : String := "get_reviews_iframe"

def fnFetch : String := "get_review_el"

def fnNum : String := "get_num_reviews"

def fnAvg : String := "get_avg_score"

/-! ### Regular expressions (lines 49-63)

Python's `\s` (ASCII part; the inputs of interest use plain spaces). -/

def pySpace (c : Char) : Bool :=
  c == ' ' || c == '\t' || c == '\n' || c == '\r' || c == '\x0b' || c == '\x0c'

-- The word part of `(\s[Cc]ustomer)?`.
def isCustWord : List Char → Option (List Char)
  | 'C' :: 'u' :: 's' :: 't' :: 'o' :: 'm' :: 'e' :: 'r' :: rest => some rest
  | 'c' :: 'u' :: 's' :: 't' :: 'o' :: 'm' :: 'e' :: 'r' :: rest => some rest
  | _ => none

-- Tail `\s[Rr]eview(s)?$`.
def matchReviewEnd : List Char → Bool
  | c :: 'R' :: 'e' :: 'v' :: 'i' :: 'e' :: 'w' :: rest =>
      pySpace c && (rest == [] || rest == ['s'])
  | c :: 'r' :: 'e' :: 'v' :: 'i' :: 'e' :: 'w' :: rest =>
      pySpace c && (rest == [] || rest == ['s'])
  | _ => false

-- Tail `\s[Cc]ustomer\s[Rr]eview(s)?$` (the optional group taken).
def matchCustReviewEnd : List Char → Bool
  | c :: rest =>
      pySpace c &&
        (match isCustWord rest with
         | some r2 => matchReviewEnd r2
         | none => false)
  | [] => false

/-- NUM_REVIEWS_RE (line 52): full match of
the pattern hat-digits-1-to-7 (optional space Customer) space Review optional-s. -/
def numReviewsMatch (s : String) : Bool :=
  let ds := s.data.takeWhile Char.isDigit
  let rest := s.data.dropWhile Char.isDigit
  decide (1 ≤ ds.length) && decide (ds.length ≤ 7) &&
    (matchReviewEnd rest || matchCustReviewEnd rest)

-- `int` applied to a run of decimal digits.
def digitsToNat (ds : List Char) : Nat :=
  ds.foldl (fun n c => 10 * n + (c.toNat - 48)) 0

/-- FLOAT_RE prefix parse of the three leading characters: `[0-5]` is a char
with code 48..53, `[0-9]` a char with code 48..57.  The parsed one-decimal
float value `d.d` is represented exactly by its number of tenths
`10*d1 + d2` (see `tenthsVal` for its rational value). -/
def parseDigits (d1 c d2 : Char) : Option Nat :=
  if c = '.' ∧ 48 ≤ d1.toNat ∧ d1.toNat ≤ 53 ∧ 48 ≤ d2.toNat ∧ d2.toNat ≤ 57 then
    some (10 * (d1.toNat - 48) + (d2.toNat - 48))
  else none

-- The rational value of a score stored as tenths.
def tenthsVal (t : Nat) : ℚ := (t : ℚ) / 10

/-- FLOAT_RE prefix parse (lines 57-58): the regex is anchored at the start
only, so it is a prefix test on the first three characters;
`FLOAT_RE.match(text).group()` followed by `float(...)` yields the
one-decimal value, stored as tenths. -/
def parseFloatHead (s : String) : Option Nat :=
  match s.data with
  | d1 :: c :: d2 :: _ => parseDigits d1 c d2
  | _ => none

/-- FLOAT_RE as a Boolean attribute test (what `soup.find(attrs=...)` uses,
via `FLOAT_RE.search`): the search succeeds exactly when the prefix parse does. -/
def floatREHead (s : String) : Bool :=
  (parseFloatHead s).isSome

-- Tail `(\s[Ss]tars)?$` of AVG_SCORE_RE.
def matchStarsEnd : List Char → Bool
  | [] => true
  | c :: s0 :: 't' :: 'a' :: 'r' :: 's' :: [] =>
      pySpace c && (s0 == 'S' || s0 == 's')
  | _ => false

-- Tail `\s[Oo]ut\s[Oo]f\s5(\s[Ss]tars)?$` of AVG_SCORE_RE.
def matchOutOf5End : List Char → Bool
  | c1 :: o1 :: 'u' :: 't' :: c2 :: o2 :: 'f' :: c3 :: '5' :: rest =>
      pySpace c1 && (o1 == 'O' || o1 == 'o') && pySpace c2 &&
        (o2 == 'O' || o2 == 'o') && pySpace c3 && matchStarsEnd rest
  | _ => false

/-- AVG_SCORE_RE (line 60): the full pattern
hat `[0-5]` dot `[0-9]` space out space of space 5, optional space stars, end. -/
def avgScoreFullMatch (s : String) : Bool :=
  match s.data with
  | d1 :: c :: d2 :: rest =>
      (c == '.') && decide (48 ≤ d1.toNat) && decide (d1.toNat ≤ 53) &&
        decide (48 ≤ d2.toNat) && decide (d2.toNat ≤ 57) && matchOutOf5End rest
  | _ => false

/-! ### Documents -/

-- An image element of the fetched review document: optional alt / title attributes.
structure ImgEl where
  alt : Option String
  title : Option String
deriving DecidableEq

-- The reviews div (`crIFrameNumCustReviews`): the texts of its link elements
-- and its image elements, in document order.
structure ReviewsEl where
  linkTexts : List String
  imgs : List ImgEl
deriving DecidableEq

-- bs4 attribute match with a regex: the attribute must be present and the
-- regex search must succeed.
def attrFloatMatch : Option String → Bool
  | some v => floatREHead v
  | none => false

def attrFullMatch : Option String → Bool
  | some v => avgScoreFullMatch v
  | none => false

/-! ### Exceptions, API object, logging -/

inductive PyExc where
  | urlError
  | requestException
  | invalidClientTokenId
  | invalidSignature
  | attributeError
  | valueError
deriving DecidableEq

-- `isinstance(e, (URLError, RequestException))` (line 109).
def isTransient : PyExc → Bool
  | PyExc.urlError => true
  | PyExc.requestException => true
  | _ => false

structure Api where
  access_key : String
  secret_key : String
deriving DecidableEq

inductive LogMsg where
  | errorIn (fn asin : String) (e : PyExc)
  | unableToConnect (attempt delay : Nat)
  | badAccessKey (key : String)
  | badSecretKey (key : String)
  | noResult (fn asin : String)
deriving DecidableEq

/-! ### The `try_me` decorator (lines 85-123) -/

structure TryResult (α : Type) where
  result : Option α
  attempts : Nat
  sleeps : Nat
  log : List LogMsg
deriving DecidableEq

-- The credential log emitted in the two auth branches (lines 115-118):
-- an InvalidClientTokenId logs the access key, an InvalidSignature logs the
-- secret key, in both cases only when an `api` kwarg was supplied.
def authLog (api : Option Api) : PyExc → List LogMsg
  | PyExc.invalidClientTokenId =>
      match api with
      | some a => [LogMsg.badAccessKey a.access_key]
      | none => []
  | PyExc.invalidSignature =>
      match api with
      | some a => [LogMsg.badSecretKey a.secret_key]
      | none => []
  | _ => []

/-- The retry loop of `try_me`.  `f k` is the outcome of the wrapped call on
loop iteration `k` (0-based; Python increments `attempts` before the call).
`fuel` is `REQUEST_ATTEMPTS - attempts`, so `fuel = 0` is the exit of the
`while attempts < REQUEST_ATTEMPTS` guard; the recursive call is taken only
when `retry_connect` was set, i.e. on a transient error, and each such call
performs one `time.sleep(REQUEST_DELAY)`. -/
def tryMeAux {α : Type} (f : Nat → Except PyExc α) (api : Option Api)
    (fn asin : String) :
    Nat → Nat → Nat → List LogMsg → TryResult α
  | 0, attempts, sleeps, log => ⟨none, attempts, sleeps, log⟩
  | fuel + 1, attempts, sleeps, log =>
      match f attempts with
      | Except.ok v => ⟨some v, attempts + 1, sleeps, log⟩
      | Except.error e =>
          if isTransient e then
            tryMeAux f api fn asin fuel (attempts + 1) (sleeps + 1)
              (log ++ [LogMsg.errorIn fn asin e,
                       LogMsg.unableToConnect (attempts + 1) REQUEST_DELAY])
          else
            ⟨none, attempts + 1, sleeps,
              log ++ (LogMsg.errorIn fn asin e :: authLog api e)⟩

-- Python truthiness of the final `result` (`if not result`, line 120):
-- never-assigned (`None`) is falsy, and an assigned value is tested with the
-- type's own falsiness.
def pyFalsy {α : Type} (falsy : α → Bool) : Option α → Bool
  | none => true
  | some v => falsy v

/-- The decorated call: run the retry loop from `attempts = 0`, and if the
final result is falsy additionally log the No-result error (line 121); the
result value itself is returned unchanged (line 122). -/
def try_me {α : Type} (f : Nat → Except PyExc α) (api : Option Api)
    (fn asin : String) (falsy : α → Bool) : TryResult α :=
  if pyFalsy falsy (tryMeAux f api fn asin REQUEST_ATTEMPTS 0 0 []).result then
    ⟨(tryMeAux f api fn asin REQUEST_ATTEMPTS 0 0 []).result,
     (tryMeAux f api fn asin REQUEST_ATTEMPTS 0 0 []).attempts,
     (tryMeAux f api fn asin REQUEST_ATTEMPTS 0 0 []).sleeps,
     (tryMeAux f api fn asin REQUEST_ATTEMPTS 0 0 []).log ++ [LogMsg.noResult fn asin]⟩
  else tryMeAux f api fn asin REQUEST_ATTEMPTS 0 0 []

/-! ### Extractors (lines 168-199) -/

-- Falsiness of the per-stage Python return values.
def natFalsy : Nat → Bool := fun n => n == 0

def optTenthsFalsy : Option Nat → Bool
  | none => true
  | some t => t == 0

def elFalsy : Option String → Bool := Option.isNone

/-- Body of `get_num_reviews`: find the first link whose text matches
NUM_REVIEWS_RE; if none is found, `reviews_link.text` raises AttributeError;
otherwise parse the leading digit run (`NUM_RE`, at most 7 digits) as an int. -/
def get_num_reviews_raw (el : ReviewsEl) : Except PyExc Nat :=
  match el.linkTexts.find? (fun t => numReviewsMatch t) with
  | none => Except.error PyExc.attributeError
  | some t =>
      let ds := (t.data.takeWhile Char.isDigit).take 7
      if ds.isEmpty then Except.error PyExc.attributeError
      else Except.ok (digitsToNat ds)

/-- Body of `get_avg_score`: for `alt` then `title`, find the first image
whose attribute FLOAT_RE-searches; a missing match raises AttributeError on
`img.attrs`, caught in the loop; after both attributes fail, return None. -/
def get_avg_score_raw (el : ReviewsEl) : Option Nat :=
  match el.imgs.find? (fun im => attrFloatMatch im.alt) with
  | some im => im.alt.bind parseFloatHead
  | none =>
      match el.imgs.find? (fun im => attrFloatMatch im.title) with
      | some im => im.title.bind parseFloatHead
      | none => none

-- The decorated extractors, as the driver calls them.
def get_num_reviews (el : ReviewsEl) (asin : String) : TryResult Nat :=
  try_me (fun _ => get_num_reviews_raw el) none fnNum asin natFalsy

def get_avg_score (el : ReviewsEl) (asin : String) : TryResult (Option Nat) :=
  try_me (fun _ => Except.ok (get_avg_score_raw el)) none fnAvg asin optTenthsFalsy

-- The decorated resolver: the lookup / parse outcome per attempt is an oracle.
def get_reviews_iframe (f : Nat → Except PyExc (Option String)) (api : Api)
    (asin : String) : TryResult (Option String) :=
  try_me f (some api) fnIframe asin elFalsy

/-! ### Namespace discovery (lines 141-150) -/

/-- Body of `get_namespace`: `xml.nsmap.get(None) or DEFAULT_NAMESPACE`, then
wrap the chosen string in braces.  The argument is the nsmap entry for the
default namespace (None when absent; Python `or` also rejects the empty
string). -/
def get_namespace_raw (nsmapDefault : Option String) : String :=
  let ns := match nsmapDefault with
    | some s => if s = "" then DEFAULT_NAMESPACE else s
    | none => DEFAULT_NAMESPACE
  "\x7b" ++ ns ++ "\x7d"

-- The search path built by `get_reviews_iframe` (line 137).
def iframeSearchPath (nsmapDefault : Option String) : String :=
  ".//" ++ get_namespace_raw nsmapDefault ++ IFRAME_NAME

/-- An ElementTree namespace-qualified prefix is well formed when it is a
single brace-wrapped URI with no brace inside. -/
def wellFormedNs (s : String) : Bool :=
  match s.data with
  | [] => false
  | c :: rest =>
      (c == '\x7b') && (rest.getLast? == some '\x7d') &&
        rest.dropLast.all (fun ch => !(ch == '\x7b') && !(ch == '\x7d'))

/-! ### Driver (lines 221-246) -/

-- A recorded row.  `avg_score` is the float value stored as tenths.
structure Row where
  asin : String
  num_reviews : Nat
  avg_score : Nat
deriving DecidableEq

-- The network-dependent stages, abstracted per identifier: the truthiness of
-- the decorated `get_reviews_iframe` / `get_review_el` results.
structure Oracles where
  iframe : String → Option String
  fetch : String → Option ReviewsEl

/-- One iteration of the driver loop: resolve, fetch, extract, and append a
row only when `all((asin, num_reviews, avg_score))` holds. -/
def mainStep (o : Oracles) (asin : String) : Option Row :=
  match o.iframe asin with
  | none => none
  | some url =>
      match o.fetch url with
      | none => none
      | some el =>
          match (get_num_reviews el asin).result, (get_avg_score el asin).result with
          | some n, some (some q) =>
              if asin ≠ "" ∧ n ≠ 0 ∧ q ≠ 0 then some ⟨asin, n, q⟩ else none
          | _, _ => none

def driverStep (o : Oracles) (acc : List Row) (asin : String) : List Row :=
  match mainStep o asin with
  | some row => acc ++ [row]
  | none => acc

-- `main`: loop over the ASINs, accumulating `asin_data` in order.
def mainRun (asins : List String) (o : Oracles) : List Row :=
  asins.foldl (driverStep o) []

/-! ### `__main__` (lines 249-266) -/

inductive RunOutcome where
  | indexError (msg : String)
  | valueError
  | apiInitError
  | attributeError
  | exit0 (rows : List Row)
deriving DecidableEq

-- External collaborators of the top level: JSON parsing of the two JSON
-- arguments and the construction of `BetterAPI`.
structure Env where
  jsonList : String → Option (List String)
  jsonCfgOk : String → Bool
  apiInitOk : Bool
  oracles : Oracles

def argMsg : String := "Expected argument: list of ASINs in JSON array or file."

/-- The `__main__` block: a missing first argument raises IndexError with a
clear message; an unparseable first or second argument raises ValueError
from `json.loads`; a third argument makes `out` a plain string, so
`output_json` raises AttributeError on `out.write` after the loop; otherwise
the loop runs to completion and the process exits 0 with the collected rows. -/
def progMain (args : List String) (env : Env) : RunOutcome :=
  match args[0]? with
  | none => RunOutcome.indexError argMsg
  | some a1 =>
      match env.jsonList a1 with
      | none => RunOutcome.valueError
      | some asin_list =>
          if (match args[1]? with
              | some a2 => env.jsonCfgOk a2
              | none => true) then
            if env.apiInitOk then
              match args[2]? with
              | some _ => RunOutcome.attributeError
              | none => RunOutcome.exit0 (mainRun asin_list env.oracles)
            else RunOutcome.apiInitError
          else RunOutcome.valueError

def isExit0 : RunOutcome → Bool
  | RunOutcome.exit0 _ => true
  | _ => false

/-! ### Concrete fixtures used by counterexamples and witnesses -/

def apiOne : Api := ⟨"AKIAEXAMPLE", "TOPSECRET"⟩

def asinB : String := "B00X"

def fSigFail : Nat → Except PyExc (Option String) :=
  fun _ => Except.error PyExc.invalidSignature

def fTokFail : Nat → Except PyExc (Option String) :=
  fun _ => Except.error PyExc.invalidClientTokenId

-- Transient failures on the first two attempts, success on the third.
def f0c : Nat → Except PyExc Nat :=
  fun k => if k < 2 then Except.error PyExc.urlError else Except.ok 42

-- Transient failure on every attempt.
def g0c : Nat → Except PyExc Nat :=
  fun _ => Except.error PyExc.requestException

def fFatal : Nat → Except PyExc Nat :=
  fun _ => Except.error PyExc.attributeError

-- A stage that returns the falsy value 0.
def fZero : Nat → Except PyExc Nat := fun _ => Except.ok 0

def elW : ReviewsEl := ⟨[], [⟨some ("4.8 out of 5 stars"), none⟩]⟩

def elBanana : ReviewsEl := ⟨[], [⟨some ("4.8 bananas"), none⟩]⟩

def elHigh : ReviewsEl := ⟨["223 customer reviews"], [⟨some ("5.9 out of 5"), none⟩]⟩

def urlHigh : String := "http://reviews.example/iframe"

def oHigh : Oracles := ⟨fun _ => some urlHigh, fun _ => some elHigh⟩

-- The row recorded for elHigh: score 5.9, i.e. 59 tenths.
def rowHigh : Row := ⟨asinB, 223, 59⟩

def argListW : String := "[]"

def envW : Env :=
  ⟨fun s => if s == "[]" then some [] else none, fun _ => true, true,
   ⟨fun _ => none, fun _ => none⟩⟩

def envBad : Env :=
  ⟨fun _ => none, fun _ => true, true, ⟨fun _ => none, fun _ => none⟩⟩

def uriCurrent : String := "http://webservices.amazon.com/AWSECommerceService/2013-08-01"

/-! ### Helper lemmas about the retry loop -/

theorem tryMeAux_succ {α : Type} (f : Nat → Except PyExc α) (api : Option Api)
    (fn asin : String) (fuel attempts sleeps : Nat) (log : List LogMsg) :
    tryMeAux f api fn asin (fuel + 1) attempts sleeps log =
      match f attempts with
      | Except.ok v => ⟨some v, attempts + 1, sleeps, log⟩
      | Except.error e =>
          if isTransient e then
            tryMeAux f api fn asin fuel (attempts + 1) (sleeps + 1)
              (log ++ [LogMsg.errorIn fn asin e,
                       LogMsg.unableToConnect (attempts + 1) REQUEST_DELAY])
          else
            ⟨none, attempts + 1, sleeps,
              log ++ (LogMsg.errorIn fn asin e :: authLog api e)⟩ := rfl

theorem try_me_result {α : Type} (f : Nat → Except PyExc α) (api : Option Api)
    (fn asin : String) (falsy : α → Bool) :
    (try_me f api fn asin falsy).result =
      (tryMeAux f api fn asin REQUEST_ATTEMPTS 0 0 []).result := by
  unfold try_me
  split <;> rfl

theorem try_me_attempts {α : Type} (f : Nat → Except PyExc α) (api : Option Api)
    (fn asin : String) (falsy : α → Bool) :
    (try_me f api fn asin falsy).attempts =
      (tryMeAux f api fn asin REQUEST_ATTEMPTS 0 0 []).attempts := by
  unfold try_me
  split <;> rfl

theorem try_me_sleeps {α : Type} (f : Nat → Except PyExc α) (api : Option Api)
    (fn asin : String) (falsy : α → Bool) :
    (try_me f api fn asin falsy).sleeps =
      (tryMeAux f api fn asin REQUEST_ATTEMPTS 0 0 []).sleeps := by
  unfold try_me
  split <;> rfl

theorem try_me_log_mono {α : Type} (f : Nat → Except PyExc α) (api : Option Api)
    (fn asin : String) (falsy : α → Bool) (x : LogMsg)
    (hx : x ∈ (tryMeAux f api fn asin REQUEST_ATTEMPTS 0 0 []).log) :
    x ∈ (try_me f api fn asin falsy).log := by
  unfold try_me
  split
  · exact List.mem_append_left _ hx
  · exact hx

/-- If the wrapped call fails transiently for the first `j` iterations after
`attempts` and then succeeds, the loop returns that success, having slept once
per failure. -/
theorem tryMeAux_succeeds {α : Type} (f : Nat → Except PyExc α) (api : Option Api)
    (fn asin : String) (v : α) :
    ∀ (j fuel attempts sleeps : Nat) (log : List LogMsg), j < fuel →
      (∀ k, k < j → ∃ e, f (attempts + k) = Except.error e ∧ isTransient e = true) →
      f (attempts + j) = Except.ok v →
      (tryMeAux f api fn asin fuel attempts sleeps log).result = some v ∧
      (tryMeAux f api fn asin fuel attempts sleeps log).sleeps = sleeps + j ∧
      (tryMeAux f api fn asin fuel attempts sleeps log).attempts = attempts + j + 1 := by
  intro j
  induction j with
  | zero =>
      intro fuel attempts sleeps log hlt hfail hok
      match fuel, hlt with
      | fuel + 1, _ =>
        rw [tryMeAux_succ]
        rw [Nat.add_zero] at hok
        rw [hok]
        exact ⟨rfl, by simp, rfl⟩
  | succ n ih =>
      intro fuel attempts sleeps log hlt hfail hok
      match fuel, hlt with
      | fuel + 1, hlt =>
        obtain ⟨e, he, hte⟩ := hfail 0 (Nat.succ_pos n)
        rw [Nat.add_zero] at he
        rw [tryMeAux_succ, he]
        simp only [hte, if_true]
        have hfail2 : ∀ k, k < n →
            ∃ e2, f (attempts + 1 + k) = Except.error e2 ∧ isTransient e2 = true := by
          intro k hk
          have := hfail (k + 1) (by omega)
          have harith : attempts + (k + 1) = attempts + 1 + k := by omega
          rw [harith] at this
          exact this
        have hok2 : f (attempts + 1 + n) = Except.ok v := by
          have harith : attempts + (n + 1) = attempts + 1 + n := by omega
          rw [harith] at hok
          exact hok
        obtain ⟨h1, h2, h3⟩ := ih fuel (attempts + 1) (sleeps + 1) _ (by omega) hfail2 hok2
        refine ⟨h1, ?_, ?_⟩
        · rw [h2]; omega
        · rw [h3]; omega

/-- If every attempt fails transiently, the loop exhausts its fuel and ends
with no result, one attempt per unit of fuel. -/
theorem tryMeAux_all_fail {α : Type} (g : Nat → Except PyExc α) (api : Option Api)
    (fn asin : String)
    (hfail : ∀ k, ∃ e, g k = Except.error e ∧ isTransient e = true) :
    ∀ (fuel attempts sleeps : Nat) (log : List LogMsg),
      (tryMeAux g api fn asin fuel attempts sleeps log).result = none ∧
      (tryMeAux g api fn asin fuel attempts sleeps log).attempts = attempts + fuel := by
  intro fuel
  induction fuel with
  | zero => intro attempts sleeps log; exact ⟨rfl, rfl⟩
  | succ m ih =>
      intro attempts sleeps log
      obtain ⟨e, he, hte⟩ := hfail attempts
      rw [tryMeAux_succ, he]
      simp only [hte, if_true]
      obtain ⟨h1, h2⟩ := ih (attempts + 1) (sleeps + 1) _
      exact ⟨h1, by rw [h2]; omega⟩

/-- A first-attempt non-transient failure ends the loop at once, with the
stage error and the credential log (if any) recorded. -/
theorem tryMeAux_fatal {α : Type} (f : Nat → Except PyExc α) (api : Option Api)
    (fn asin : String) (e : PyExc)
    (h0 : f 0 = Except.error e) (ht : isTransient e = false) :
    tryMeAux f api fn asin REQUEST_ATTEMPTS 0 0 [] =
      ⟨none, 1, 0, LogMsg.errorIn fn asin e :: authLog api e⟩ := by
  show tryMeAux f api fn asin (9 + 1) 0 0 [] = _
  rw [tryMeAux_succ, h0]
  simp [ht]

theorem try_me_fatal {α : Type} (f : Nat → Except PyExc α) (api : Option Api)
    (fn asin : String) (falsy : α → Bool) (e : PyExc)
    (h0 : f 0 = Except.error e) (ht : isTransient e = false) :
    try_me f api fn asin falsy =
      ⟨none, 1, 0,
        (LogMsg.errorIn fn asin e :: authLog api e) ++ [LogMsg.noResult fn asin]⟩ := by
  unfold try_me
  rw [tryMeAux_fatal f api fn asin e h0 ht]
  rfl

/-! ### C5 — fetcher retry -/

/-- C5: a wrapped call that fails with a transient network error on the first
N-1 attempts and succeeds on attempt N (N within REQUEST_ATTEMPTS) returns the
document having slept exactly N-1 times; a call that fails transiently on
every attempt returns absent after exactly REQUEST_ATTEMPTS attempts. -/
theorem fetch_retry {α : Type} (f : Nat → Except PyExc α) (api : Option Api)
    (fn asin : String) (falsy : α → Bool) (v : α) (N : Nat)
    (hN1 : 1 ≤ N) (hN2 : N ≤ REQUEST_ATTEMPTS)
    (hfail : ∀ k, k < N - 1 → ∃ e, f k = Except.error e ∧ isTransient e = true)
    (hok : f (N - 1) = Except.ok v) :
    (try_me f api fn asin falsy).result = some v ∧
    (try_me f api fn asin falsy).sleeps = N - 1 ∧
    (∀ g : Nat → Except PyExc α,
      (∀ k, ∃ e, g k = Except.error e ∧ isTransient e = true) →
      (try_me g api fn asin falsy).result = none ∧
      (try_me g api fn asin falsy).attempts = REQUEST_ATTEMPTS) := by
  have hfail0 : ∀ k, k < N - 1 →
      ∃ e, f (0 + k) = Except.error e ∧ isTransient e = true := by
    intro k hk
    rw [Nat.zero_add]
    exact hfail k hk
  have hok0 : f (0 + (N - 1)) = Except.ok v := by rw [Nat.zero_add]; exact hok
  obtain ⟨h1, h2, h3⟩ :=
    tryMeAux_succeeds f api fn asin v (N - 1) REQUEST_ATTEMPTS 0 0 []
      (by omega) hfail0 hok0
  refine ⟨?_, ?_, ?_⟩
  · rw [try_me_result]; exact h1
  · rw [try_me_sleeps, h2]; omega
  · intro g hg
    obtain ⟨hg1, hg2⟩ := tryMeAux_all_fail g api fn asin hg REQUEST_ATTEMPTS 0 0 []
    constructor
    · rw [try_me_result]; exact hg1
    · rw [try_me_attempts, hg2]; omega

/-- C5 witness: concrete success on attempt 3 after two transient failures,
and a concrete always-failing call exhausting all 10 attempts. -/
theorem fetch_retry_witness :
    (try_me f0c none fnFetch asinB natFalsy).result = some 42 ∧
    (try_me f0c none fnFetch asinB natFalsy).sleeps = 2 ∧
    (try_me g0c none fnFetch asinB natFalsy).result = none ∧
    (try_me g0c none fnFetch asinB natFalsy).attempts = 10 := by
  have h := fetch_retry f0c none fnFetch asinB natFalsy 42 3
    (by decide) (by decide)
    (by
      intro k hk
      refine ⟨PyExc.urlError, ?_, rfl⟩
      have hk2 : k < 2 := hk
      simp [f0c, hk2])
    rfl
  obtain ⟨h1, h2, h3⟩ := h
  have hg := h3 g0c (fun k => ⟨PyExc.requestException, rfl, rfl⟩)
  exact ⟨h1, h2, hg.1, hg.2⟩

/-! ### C6 — non-network errors are not retried -/

/-- C6: an exception on the first attempt that is not a transient network
error ends the stage immediately: one attempt, absent result, and the error
is logged with the stage name and identifier; nothing propagates. -/
theorem stage_no_retry {α : Type} (f : Nat → Except PyExc α) (api : Option Api)
    (fn asin : String) (falsy : α → Bool) (e : PyExc)
    (h0 : f 0 = Except.error e) (ht : isTransient e = false) :
    (try_me f api fn asin falsy).result = none ∧
    (try_me f api fn asin falsy).attempts = 1 ∧
    LogMsg.errorIn fn asin e ∈ (try_me f api fn asin falsy).log := by
  rw [try_me_fatal f api fn asin falsy e h0 ht]
  exact ⟨rfl, rfl, by simp⟩

/-- C6 witness: a concrete AttributeError is caught, not retried, and
logged with stage name and identifier. -/
theorem stage_no_retry_witness :
    (try_me fFatal none fnNum asinB natFalsy).result = none ∧
    (try_me fFatal none fnNum asinB natFalsy).attempts = 1 ∧
    LogMsg.errorIn fnNum asinB PyExc.attributeError ∈
      (try_me fFatal none fnNum asinB natFalsy).log :=
  stage_no_retry fFatal none fnNum asinB natFalsy PyExc.attributeError rfl rfl

/-! ### C1 — authentication errors -/

/-- C1 counterexample: an InvalidSignature raised by the resolver is logged
with the secret key value itself (line 118 of the source), refuting the
claim that the secret value is never logged. -/
theorem auth_secret_logged :
    LogMsg.badSecretKey "TOPSECRET" ∈
      (get_reviews_iframe fSigFail apiOne asinB).log ∧
    apiOne.secret_key = "TOPSECRET" := by
  constructor
  · rw [get_reviews_iframe,
      try_me_fatal fSigFail (some apiOne) fnIframe asinB elFalsy
        PyExc.invalidSignature rfl rfl]
    simp [authLog, apiOne]
  · rfl

/-- C1 amended: an authentication error (invalid access key or invalid
signature) on the resolver call is not retried and the call returns absent;
an invalid access key is logged with the access key, while an invalid
signature is logged with the secret key value. -/
theorem auth_no_retry {α : Type} (f : Nat → Except PyExc α) (a : Api)
    (fn asin : String) (falsy : α → Bool) (e : PyExc)
    (he : e = PyExc.invalidClientTokenId ∨ e = PyExc.invalidSignature)
    (h0 : f 0 = Except.error e) :
    (try_me f (some a) fn asin falsy).result = none ∧
    (try_me f (some a) fn asin falsy).attempts = 1 ∧
    (e = PyExc.invalidClientTokenId →
      LogMsg.badAccessKey a.access_key ∈ (try_me f (some a) fn asin falsy).log) ∧
    (e = PyExc.invalidSignature →
      LogMsg.badSecretKey a.secret_key ∈ (try_me f (some a) fn asin falsy).log) := by
  have ht : isTransient e = false := by
    rcases he with h | h <;> subst h <;> rfl
  rw [try_me_fatal f (some a) fn asin falsy e h0 ht]
  refine ⟨rfl, rfl, ?_, ?_⟩
  · intro hcase; subst hcase; simp [authLog]
  · intro hcase; subst hcase; simp [authLog]

/-- C1 witness: concrete InvalidClientTokenId run, not retried, absent,
access key logged. -/
theorem auth_no_retry_witness :
    (try_me fTokFail (some apiOne) fnIframe asinB elFalsy).result = none ∧
    (try_me fTokFail (some apiOne) fnIframe asinB elFalsy).attempts = 1 ∧
    LogMsg.badAccessKey apiOne.access_key ∈
      (try_me fTokFail (some apiOne) fnIframe asinB elFalsy).log := by
  have h := auth_no_retry fTokFail apiOne fnIframe asinB elFalsy
    PyExc.invalidClientTokenId (Or.inl rfl) rfl
  exact ⟨h.1, h.2.1, h.2.2.1 rfl⟩

/-! ### C8 — review-count round trips -/

/-- C8: the decorated count extractor yields 223 for a link whose text is
the string 223-customer-reviews, 0 for 0-Customer-Reviews, 1 for 1-Review,
223 for the generic 223-reviews, and absent when the only candidate text is
223-comments. -/
theorem count_round_trip :
    (get_num_reviews ⟨["223 customer reviews"], []⟩ asinB).result = some 223 ∧
    (get_num_reviews ⟨["0 Customer Reviews"], []⟩ asinB).result = some 0 ∧
    (get_num_reviews ⟨["1 Review"], []⟩ asinB).result = some 1 ∧
    (get_num_reviews ⟨["223 reviews"], []⟩ asinB).result = some 223 ∧
    (get_num_reviews ⟨["223 comments"], []⟩ asinB).result = none := by
  decide

/-! ### C4 — namespace discovery and fallback -/

/-- C4: when the lookup response carries a default-namespace entry, the code
wraps that URI in braces and the node search uses a well-formed qualified
name; but when the response carries none, the fallback wraps the already
brace-wrapped DEFAULT_NAMESPACE in braces again, producing a double-braced,
malformed qualified name — the code contradicts its own docstring example of
a single-braced result. -/
theorem namespace_fallback_bug :
    get_namespace_raw (some uriCurrent) = "\x7b" ++ uriCurrent ++ "\x7d" ∧
    wellFormedNs (get_namespace_raw (some uriCurrent)) = true ∧
    get_namespace_raw none = "\x7b" ++ DEFAULT_NAMESPACE ++ "\x7d" ∧
    wellFormedNs (get_namespace_raw none) = false ∧
    iframeSearchPath none = ".//" ++ "\x7b" ++ DEFAULT_NAMESPACE ++ "\x7d" ++ IFRAME_NAME := by
  refine ⟨rfl, by decide, rfl, by decide, rfl⟩

/-! ### C2 — score extraction -/

theorem attrFloat_some {oa : Option String} (h : attrFloatMatch oa = true) :
    ∃ v, oa = some v ∧ (parseFloatHead v).isSome = true := by
  cases oa with
  | none => simp [attrFloatMatch] at h
  | some v =>
      refine ⟨v, rfl, ?_⟩
      simpa [attrFloatMatch, floatREHead] using h

/-- C2 counterexample: an image whose alt attribute is the string
4.8-space-bananas yields the score 4.8 although no attribute of any image
matches the full AVG_SCORE_RE pattern — the code searches and parses with
the prefix FLOAT_RE only. -/
theorem score_full_pattern_counterexample :
    (get_avg_score_raw elBanana).isSome = true ∧
    elBanana.imgs.all
      (fun im => !attrFullMatch im.alt && !attrFullMatch im.title) = true := by
  decide

/-- C2 amended: the score extractor returns a value exactly when some image
has an alt or title attribute whose value starts with the FLOAT_RE prefix
(digit 0-5, dot, digit); alt is consulted across all images before title, so
when any alt matches, the result is parsed from the first matching alt; when
neither attribute of any image matches, the result is absent, not an error. -/
theorem score_head_amended (el : ReviewsEl) :
    (get_avg_score_raw el).isSome =
        el.imgs.any (fun im => attrFloatMatch im.alt || attrFloatMatch im.title) ∧
    (el.imgs.any (fun im => attrFloatMatch im.alt) = true →
      get_avg_score_raw el =
        (el.imgs.find? (fun im => attrFloatMatch im.alt)).bind
          (fun im => im.alt.bind parseFloatHead)) := by
  constructor
  · unfold get_avg_score_raw
    cases h1 : el.imgs.find? (fun im => attrFloatMatch im.alt) with
    | some im =>
        have hp0 := List.find?_some h1
        have hp : attrFloatMatch im.alt = true := hp0
        have hm : im ∈ el.imgs := List.mem_of_find?_eq_some h1
        obtain ⟨v, hv, hps⟩ := attrFloat_some hp
        show (im.alt.bind parseFloatHead).isSome = _
        rw [hv]
        show (parseFloatHead v).isSome = _
        rw [hps]
        symm
        rw [List.any_eq_true]
        exact ⟨im, hm, by simp [hp]⟩
    | none =>
        have hno1 := List.find?_eq_none.mp h1
        cases h2 : el.imgs.find? (fun im => attrFloatMatch im.title) with
        | some im =>
            have hp0 := List.find?_some h2
            have hp : attrFloatMatch im.title = true := hp0
            have hm : im ∈ el.imgs := List.mem_of_find?_eq_some h2
            obtain ⟨v, hv, hps⟩ := attrFloat_some hp
            show (im.title.bind parseFloatHead).isSome = _
            rw [hv]
            show (parseFloatHead v).isSome = _
            rw [hps]
            symm
            rw [List.any_eq_true]
            exact ⟨im, hm, by simp [hp]⟩
        | none =>
            have hno2 := List.find?_eq_none.mp h2
            show (none : Option Nat).isSome = _
            symm
            rw [Option.isSome_none, List.any_eq_false]
            intro im hm
            have e1 := hno1 im hm
            have e2 := hno2 im hm
            simp only [Bool.not_eq_true] at e1 e2
            simp [e1, e2]
  · intro hany
    unfold get_avg_score_raw
    cases h1 : el.imgs.find? (fun im => attrFloatMatch im.alt) with
    | some im => rfl
    | none =>
        obtain ⟨x, hx, hpx⟩ := List.any_eq_true.mp hany
        exact absurd hpx (by simpa using List.find?_eq_none.mp h1 x hx)

/-- C2 witness: on a document whose single image has the alt text
4.8-out-of-5-stars, some alt matches and the result is parsed from the first
matching alt. -/
theorem score_head_amended_witness :
    get_avg_score_raw elW =
      (elW.imgs.find? (fun im => attrFloatMatch im.alt)).bind
        (fun im => im.alt.bind parseFloatHead) :=
  (score_head_amended elW).2 (by decide)

/-! ### Driver lemmas -/

theorem get_avg_score_result (el : ReviewsEl) (asin : String) :
    (get_avg_score el asin).result = some (get_avg_score_raw el) := by
  rw [get_avg_score, try_me_result]
  rfl

theorem driver_foldl (o : Oracles) :
    ∀ (asins : List String) (acc : List Row),
      asins.foldl (driverStep o) acc = acc ++ asins.filterMap (mainStep o) := by
  intro asins
  induction asins with
  | nil => intro acc; simp
  | cons a rest ih =>
      intro acc
      rw [List.foldl_cons, ih, List.filterMap_cons]
      unfold driverStep
      cases h : mainStep o a with
      | none => simp
      | some r => simp

theorem mainRun_eq (asins : List String) (o : Oracles) :
    mainRun asins o = asins.filterMap (mainStep o) := by
  rw [mainRun, driver_foldl]
  simp

theorem parseDigits_bounds (d1 c d2 : Char) (t : Nat)
    (h : parseDigits d1 c d2 = some t) : t ≤ 59 := by
  unfold parseDigits at h
  split at h
  · rename_i hcond
    obtain ⟨hc, hd1a, hd1b, hd2a, hd2b⟩ := hcond
    injection h with ht
    omega
  · exact absurd h (by simp)

theorem parseFloatHead_bounds (v : String) (t : Nat) (h : parseFloatHead v = some t) :
    t ≤ 59 := by
  unfold parseFloatHead at h
  split at h
  · exact parseDigits_bounds _ _ _ t h
  · exact absurd h (by simp)

theorem get_avg_score_raw_bounds (el : ReviewsEl) (t : Nat)
    (h : get_avg_score_raw el = some t) : t ≤ 59 := by
  unfold get_avg_score_raw at h
  split at h
  · rename_i im heq
    cases halt : im.alt with
    | none => rw [halt] at h; exact absurd h (by simp)
    | some v =>
        rw [halt] at h
        exact parseFloatHead_bounds v t (by simpa using h)
  · split at h
    · rename_i im heq
      cases ht : im.title with
      | none => rw [ht] at h; exact absurd h (by simp)
      | some v =>
          rw [ht] at h
          exact parseFloatHead_bounds v t (by simpa using h)
    · exact absurd h (by simp)

/-- What a successful loop iteration guarantees about its row. -/
theorem mainStep_some_spec (o : Oracles) (a : String) (r : Row)
    (h : mainStep o a = some r) :
    r.asin = a ∧ r.asin ≠ "" ∧ r.num_reviews ≠ 0 ∧ r.avg_score ≠ 0 ∧
      ∃ el : ReviewsEl, get_avg_score_raw el = some r.avg_score := by
  unfold mainStep at h
  cases h1 : o.iframe a with
  | none => rw [h1] at h; exact absurd h (by simp)
  | some url =>
      simp only [h1] at h
      cases h2 : o.fetch url with
      | none => simp only [h2] at h; exact absurd h (by simp)
      | some el =>
          simp only [h2] at h
          split at h
          · rename_i n oq hn hq
            split at h
            · rename_i hcond
              obtain ⟨ha, hn0, hq0⟩ := hcond
              injection h with hrow
              subst hrow
              refine ⟨rfl, ha, hn0, hq0, el, ?_⟩
              have := get_avg_score_result el a
              rw [hq] at this
              injection this with hsome
              exact hsome.symm
            · exact absurd h (by simp)
          · exact absurd h (by simp)

/-! ### C3 — row invariants -/

/-- C3 counterexample: a document whose image alt is the string 5.9-out-of-5
passes the FLOAT_RE prefix search, so the driver records an average score of
5.9, outside the claimed interval up to 5.0. -/
theorem record_bounds_counterexample :
    mainRun [asinB] oHigh = [rowHigh] ∧
    tenthsVal rowHigh.avg_score = 59 / 10 ∧
    ¬ tenthsVal rowHigh.avg_score ≤ 5 := by
  refine ⟨by decide, ?_, ?_⟩
  · show ((59 : Nat) : ℚ) / 10 = 59 / 10
    norm_num
  · show ¬ ((59 : Nat) : ℚ) / 10 ≤ 5
    norm_num

/-- C3 amended: every row in the output collection has a nonnegative integer
review count and an average score in the interval from 0.0 to 5.9 (the
FLOAT_RE prefix admits any digit after the decimal point). -/
theorem record_bounds (asins : List String) (o : Oracles) (r : Row)
    (hr : r ∈ mainRun asins o) :
    0 ≤ r.num_reviews ∧ 0 ≤ tenthsVal r.avg_score ∧ tenthsVal r.avg_score ≤ 59 / 10 := by
  rw [mainRun_eq] at hr
  obtain ⟨a, _, hstep⟩ := List.mem_filterMap.mp hr
  obtain ⟨-, -, -, -, el, hel⟩ := mainStep_some_spec o a r hstep
  have hb := get_avg_score_raw_bounds el r.avg_score hel
  refine ⟨Nat.zero_le _, ?_, ?_⟩
  · unfold tenthsVal; positivity
  · unfold tenthsVal
    have hc : ((r.avg_score : ℚ)) ≤ 59 := by exact_mod_cast hb
    linarith

/-- C3 witness: the bounds hold for the concrete recorded row. -/
theorem record_bounds_witness :
    0 ≤ rowHigh.num_reviews ∧ 0 ≤ tenthsVal rowHigh.avg_score ∧
      tenthsVal rowHigh.avg_score ≤ 59 / 10 :=
  record_bounds [asinB] oHigh rowHigh (by decide)

/-! ### C7 — output size and order -/

/-- C7: the driver records at most one row per input identifier, so the
output is no longer than the input, and the recorded identifiers form a
sublist of the input list (input order is preserved). -/
theorem output_order (asins : List String) (o : Oracles) :
    (mainRun asins o).length ≤ asins.length ∧
    ((mainRun asins o).map Row.asin).Sublist asins := by
  rw [mainRun_eq]
  constructor
  · exact List.length_filterMap_le _ _
  · induction asins with
    | nil => simp
    | cons a rest ih =>
        rw [List.filterMap_cons]
        cases h : mainStep o a with
        | none => exact List.Sublist.cons a ih
        | some r =>
            have ha : r.asin = a := (mainStep_some_spec o a r h).1
            rw [List.map_cons, ha]
            exact List.Sublist.cons₂ a ih

/-! ### C10 — truthiness gate and No-result logging -/

/-- C10: a row is recorded only when the identifier and both extracted
fields are truthy — a zero count or zero score yields no row — and the
decorator logs the No-result error whenever the stage result is falsy. -/
theorem truthy_gate :
    (∀ (asins : List String) (o : Oracles) (r : Row), r ∈ mainRun asins o →
        r.asin ≠ "" ∧ r.num_reviews ≠ 0 ∧ r.avg_score ≠ 0) ∧
    (∀ (α : Type) (f : Nat → Except PyExc α) (api : Option Api)
        (fn asin : String) (falsy : α → Bool),
        pyFalsy falsy (try_me f api fn asin falsy).result = true →
        LogMsg.noResult fn asin ∈ (try_me f api fn asin falsy).log) := by
  constructor
  · intro asins o r hr
    rw [mainRun_eq] at hr
    obtain ⟨a, _, hstep⟩ := List.mem_filterMap.mp hr
    obtain ⟨-, h1, h2, h3, -⟩ := mainStep_some_spec o a r hstep
    exact ⟨h1, h2, h3⟩
  · intro α f api fn asin falsy hf
    rw [try_me_result] at hf
    unfold try_me
    rw [if_pos hf]
    simp

/-- C10 witness: a concrete run whose rows all satisfy the gate, and a
concrete stage returning the falsy value 0, which gets the No-result log. -/
theorem truthy_gate_witness :
    (rowHigh.asin ≠ "" ∧ rowHigh.num_reviews ≠ 0 ∧ rowHigh.avg_score ≠ 0) ∧
    LogMsg.noResult fnNum asinB ∈ (try_me fZero none fnNum asinB natFalsy).log :=
  ⟨truthy_gate.1 [asinB] oHigh rowHigh (by decide),
   truthy_gate.2 Nat fZero none fnNum asinB natFalsy (by decide)⟩

/-! ### C9 — top-level exit behavior -/

/-- C9 counterexample: with the first argument present but not parseable as
JSON, `json.loads` raises ValueError before any processing and the process
does not write output or exit 0, refuting the claim for a merely present
argument. -/
theorem exit_behavior_counterexample :
    progMain ["["] envBad = RunOutcome.valueError ∧
    isExit0 (progMain ["["] envBad) = false := by
  exact ⟨rfl, rfl⟩

/-- C9 amended: a missing first argument raises the IndexError with a clear
message before any identifier processing; when the first argument parses as
a JSON list, any second argument parses, the API client constructs, and no
third argument is given, the process writes the collected rows and exits 0
regardless of how many individual identifiers failed. -/
theorem exit_behavior (args : List String) (env : Env) (a1 : String)
    (asin_list : List String)
    (h1 : args[0]? = some a1) (h2 : env.jsonList a1 = some asin_list)
    (h3 : ∀ a2, args[1]? = some a2 → env.jsonCfgOk a2 = true)
    (h4 : env.apiInitOk = true) (h5 : args[2]? = none) :
    progMain args env = RunOutcome.exit0 (mainRun asin_list env.oracles) ∧
    (∀ env2 : Env, progMain [] env2 = RunOutcome.indexError argMsg) := by
  constructor
  · have hc : (match args[1]? with
        | some a2 => env.jsonCfgOk a2
        | none => true) = true := by
      cases harg2 : args[1]? with
      | none => rfl
      | some a2 => exact h3 a2 harg2
    unfold progMain
    rw [h1]
    simp only [h2, hc, h4, h5, if_true]
  · intro env2
    rfl

/-- C9 witness: a concrete invocation with a parseable empty list of
identifiers exits 0 with an empty output. -/
theorem exit_behavior_witness :
    progMain [argListW] envW = RunOutcome.exit0 (mainRun [] envW.oracles) ∧
    progMain [] envW = RunOutcome.indexError argMsg := by
  have h := exit_behavior [argListW] envW argListW [] rfl rfl
    (by
      intro a2 hcontra
      exact Option.noConfusion hcontra)
    rfl rfl
  exact ⟨h.1, h.2 envW⟩

end ProductReviews
